import Mathlib

/-!
Verification of the layer/data-source subsystem of the universal-map-component
repository. JavaScript values, descriptor records and registry classes are
shallowly embedded as Lean structures; class methods become pure functions that
return the new state together with an `Except`-style outcome, so that the throw
points of the TypeScript source are explicit. Asynchronous `fetch`/script I/O is
modelled by an explicit environment `String → FetchOutcome`, and the event-loop
interleaving of two concurrent `load()` calls is written out as the JS runtime
would schedule it (both synchronous prefixes run before either response
callback).
-/

set_option autoImplicit false

/-- A JavaScript/JSON value. Numbers are modelled as rationals (the opacity
arithmetic of the source only compares against 0 and 1). -/
inductive JVal where
  | null
  | bool (b : Bool)
  | num (q : Rat)
  | str (s : String)
  | arr (xs : List JVal)
  | obj (fields : List (String × JVal))

/-- A JavaScript object, as an ordered association list of own properties
(keys kept unique by the update operations below). -/
abbrev JObj : Type := List (String × JVal)

/-- JavaScript truthiness of a value (`null`, `false`, `0`, `""` are falsy;
arrays and objects are always truthy). -/
def JVal.truthy : JVal → Bool
  | .null => false
  | .bool b => b
  | .num q => q != 0
  | .str s => s != ""
  | .arr _ => true
  | .obj _ => true

/-- Truthiness of an optional JS value (absent = `undefined` = falsy). -/
def jsTruthy : Option JVal → Bool
  | none => false
  | some v => v.truthy

/-- Lookup of a property in an ordered association list (first match). -/
def aget {α : Type} (m : List (String × α)) (k : String) : Option α :=
  (m.find? (fun p => p.1 == k)).map Prod.snd

/-- `Map.set` / object-property assignment: replace the value at an existing
key in place, otherwise append the new entry (JS insertion order). -/
def aset {α : Type} (m : List (String × α)) (k : String) (v : α) : List (String × α) :=
  match m with
  | [] => [(k, v)]
  | p :: rest => if p.1 == k then (k, v) :: rest else p :: aset rest k v

/-- `Map.delete`: drop the entry with the given key. -/
def adel {α : Type} (m : List (String × α)) (k : String) : List (String × α) :=
  m.filter (fun p => p.1 != k)

/-- JS object spread `\x7b...a, ...b\x7d`: properties of `b` override those of
`a`, new keys of `b` are appended in order. -/
def JObj.spread (a b : JObj) : JObj :=
  b.foldl (fun acc p => aset acc p.1 p.2) a

/-- Property read on a `JObj`. -/
def JObj.get (o : JObj) (k : String) : Option JVal :=
  aget o k

/-- An exception thrown by the source: either a plain `Error(message)` or a
`MapError(message, code)` from core/types.ts. -/
inductive MErr where
  | error (msg : String)
  | mapError (msg code : String)
  deriving DecidableEq

/-! ### SourceDescriptor normalization (core/data-source.ts, `DataSourceFactory.normalizeSource`) -/

/-- The runtime input of `normalizeSource`: `DataSource | string | GeoJSON`,
i.e. a string or an object. -/
inductive SrcInput where
  | str (s : String)
  | obj (o : JObj)

/-- `source.startsWith(p)` on strings, written over the character lists so that
it evaluates by `rfl`. -/
def strStarts (s p : String) : Bool :=
  p.data.isPrefixOf s.data

/-- `DataSourceFactory.normalizeSource`, translated clause by clause:
strings with the `mock://` scheme become mock descriptors, other strings URL
descriptors; an object is passed through unchanged when `'type' in source &&
source.type` holds (i.e. any truthy `type` property), otherwise it is wrapped
as inline GeoJSON. -/
def normalizeSource : SrcInput → JObj
  | .str s =>
    if strStarts s "mock://" then
      [("type", .str "mock"), ("data", .str s)]
    else
      [("type", .str "url"), ("url", .str s)]
  | .obj o =>
    if jsTruthy (o.get "type") then
      o
    else
      [("type", .str "geojson"), ("data", .obj o)]

/-- The five `DataSourceType` tags recognized by `DataSourceFactory.createDataSource`
(the `custom` tag of the `DataSourceType` union has no factory case). -/
def recognizedSourceTag (t : String) : Bool :=
  t == "geojson" || t == "url" || t == "tiles" || t == "3d-tiles" || t == "mock"

example : normalizeSource (.str "mock://buildings-nyc")
    = [("type", .str "mock"), ("data", .str "mock://buildings-nyc")] := rfl

example : normalizeSource (.str "https://x/data.json")
    = [("type", .str "url"), ("url", .str "https://x/data.json")] := rfl

example : normalizeSource (.obj [("type", .str "FeatureCollection"), ("features", .arr [])])
    = [("type", .str "FeatureCollection"), ("features", .arr [])] := rfl

/-! ### DataSource variants (core/data-source.ts) -/

/-- The typed `DataSource` descriptor consumed by the concrete variants:
`type` tag, optional inline `data` (string = URL for the geojson variant),
optional `url`. -/
structure DSConfig where
  type : String
  data : Option JVal := none
  url : Option String := none

/-- A live data-source instance: `BaseDataSource` fields. `data` starts as
`null` and `loaded` as `false`; `type` is copied from the descriptor at
construction. -/
structure DSInstance where
  type : String
  config : DSConfig
  loaded : Bool
  data : JVal

/-- `BaseDataSource` constructor body. -/
def mkBaseDataSource (c : DSConfig) : DSInstance :=
  { type := c.type, config := c, loaded := false, data := .null }

/-- `BaseDataSource.destroy`: clear the payload and reset `loaded`. -/
def dsDestroy (s : DSInstance) : DSInstance :=
  { s with data := .null, loaded := false }

/-- `DataSourceFactory.createDataSource`: dispatch on the `type` tag to the
matching variant constructor (each constructor rechecks that the tag matches
its own variant, which is trivially true under this dispatch); an unrecognized
tag throws. -/
def createDataSource (c : DSConfig) : Except MErr DSInstance :=
  if c.type == "geojson" then .ok (mkBaseDataSource c)
  else if c.type == "url" then .ok (mkBaseDataSource c)
  else if c.type == "tiles" then .ok (mkBaseDataSource c)
  else if c.type == "3d-tiles" then .ok (mkBaseDataSource c)
  else if c.type == "mock" then .ok (mkBaseDataSource c)
  else .error (.error ("Unsupported data source type: " ++ c.type))

/-- Outcome of one `fetch(url)` in the environment: a parsed JSON body on a
successful response, a non-success response (`!response.ok`), or a transport
failure (the fetch promise rejects). -/
inductive FetchOutcome where
  | ok (body : JVal)
  | httpErr (statusText : String)
  | netErr (msg : String)

/-- The network environment: what fetching each URL yields. -/
abbrev FetchEnv : Type := String → FetchOutcome

/-- Result of the synchronous part of `URLDataSource.load` (everything before
the first `await`): either it returns the memoized payload, throws because the
URL is missing, or issues a fetch for the URL. -/
inductive URLPhase where
  | memo (payload : JVal)
  | failNoUrl
  | fetching (u : String)

/-- Synchronous part of `URLDataSource.load`: the memo guard is
`this.loaded && this.data` (JS truthiness of the payload), then the URL guard
`!this.config.url` (absent or empty string). -/
def urlLoadStart (s : DSInstance) : URLPhase :=
  if s.loaded && s.data.truthy then .memo s.data
  else
    match s.config.url with
    | none => .failNoUrl
    | some u => if u == "" then .failNoUrl else .fetching u

/-- Continuation of `URLDataSource.load` after its fetch resolves: a
successful response memoizes the body and sets `loaded`; a non-success
response or transport failure throws with the instance state untouched. -/
def urlLoadFinish (env : FetchEnv) (u : String) (s : DSInstance) :
    Except MErr JVal × DSInstance :=
  match env u with
  | .ok body => (.ok body, { s with data := body, loaded := true })
  | .httpErr st => (.error (.error ("Failed to load data: " ++ st)), s)
  | .netErr m => (.error (.error m), s)

/-- One full `URLDataSource.load` call: result, post-state, and the number of
fetches performed. -/
def urlLoad (env : FetchEnv) (s : DSInstance) :
    Except MErr JVal × DSInstance × Nat :=
  match urlLoadStart s with
  | .memo p => (.ok p, s, 0)
  | .failNoUrl => (.error (.error "URL is required for URLDataSource"), s, 0)
  | .fetching u =>
    let r := urlLoadFinish env u s
    (r.1, r.2, 1)

/-- Two `URLDataSource.load()` calls issued back to back on the same instance
(e.g. `Promise.all`), scheduled as the JS event loop does: both synchronous
prefixes run against the same initial state — the method mutates nothing
before its first `await` — and the response callbacks then run in issue
order. Returns both results, the final state and the total fetch count. -/
def urlLoadConcurrent (env : FetchEnv) (s : DSInstance) :
    Except MErr JVal × Except MErr JVal × DSInstance × Nat :=
  match urlLoadStart s with
  | .memo p => (.ok p, .ok p, s, 0)
  | .failNoUrl =>
    (.error (.error "URL is required for URLDataSource"),
     .error (.error "URL is required for URLDataSource"), s, 0)
  | .fetching u =>
    let r1 := urlLoadFinish env u s
    let r2 := urlLoadFinish env u r1.2
    (r1.1, r2.1, r2.2, 2)

/-- One full `GeoJSONDataSource.load` call: the memo guard is the same
`this.loaded && this.data`; a string `data` field is treated as a URL and
fetched (`typeof this.config.data === 'string'`), any other truthy `data` is
used inline, and otherwise the call throws. -/
def geojsonLoad (env : FetchEnv) (s : DSInstance) :
    Except MErr JVal × DSInstance × Nat :=
  if s.loaded && s.data.truthy then (.ok s.data, s, 0)
  else
    match s.config.data with
    | some (.str u) =>
      match env u with
      | .ok body => (.ok body, { s with data := body, loaded := true }, 1)
      | .httpErr st => (.error (.error ("Failed to load GeoJSON: " ++ st)), s, 1)
      | .netErr m => (.error (.error m), s, 1)
    | some d =>
      if d.truthy then (.ok d, { s with data := d, loaded := true }, 0)
      else (.error (.error "GeoJSON data or URL is required"), s, 0)
    | none => (.error (.error "GeoJSON data or URL is required"), s, 0)

/-! ### DataSourceManager (core/data-source.ts) -/

/-- Keyed registry of data-source instances. -/
structure DSManager where
  sources : List (String × DSInstance)

/-- `DataSourceManager.registerSource`: construct via the factory and `set`
into the map — no duplicate-id check, so an existing entry is displaced
without any call to its `destroy()`. The third component logs the instances
`destroy()` was invoked on during the call (none here). -/
def dsRegisterSource (m : DSManager) (id : String) (cfg : DSConfig) :
    Except MErr DSInstance × DSManager × List DSInstance :=
  match createDataSource cfg with
  | .error e => (.error e, m, [])
  | .ok s => (.ok s, ⟨aset m.sources id s⟩, [])

/-- `DataSourceManager.removeSource`: destroy the instance, then delete the
entry; a no-op for an unknown id. The second component logs the instances
`destroy()` was invoked on. -/
def dsRemoveSource (m : DSManager) (id : String) : DSManager × List DSInstance :=
  match aget m.sources id with
  | none => (m, [])
  | some s => (⟨adel m.sources id⟩, [s])

/-- `DataSourceManager.clear`: destroy every instance, then clear the map. -/
def dsClear (m : DSManager) : DSManager × List DSInstance :=
  (⟨[]⟩, m.sources.map Prod.snd)

/-! ### GoogleMapsAPILoader (providers/google/loader.ts) -/

/-- The loader's tri-plus-one state `LoadStatus`. -/
inductive GStatus where
  | notLoaded
  | loading
  | loadedSt
  | failedSt
  deriving DecidableEq, BEq

/-- `GoogleMapsAPILoader` instance state plus the `window.google` global the
loader script populates. -/
structure GLoader where
  status : GStatus
  hasPromise : Bool
  err : Option MErr
  windowGoogle : Bool

/-- What the synchronous part of `GoogleMapsAPILoader.load` does before any
suspension: return immediately, share the in-flight promise, or start a new
script load. -/
inductive GPhase where
  | done (r : Except MErr Unit)
  | share
  | start

/-- Synchronous part of `GoogleMapsAPILoader.load`, branch for branch:
already `LOADED` with `window.google.maps` present → return; `LOADING` with a
stored promise → share it (the single-flight guard); previously `FAILED` with
a stored error → rethrow it; otherwise set `LOADING`, store a fresh promise
and start loading. -/
def gLoadStart (l : GLoader) : GPhase × GLoader :=
  if l.status == .loadedSt && l.windowGoogle then (.done (.ok ()), l)
  else if l.status == .loading && l.hasPromise then (.share, l)
  else
    match l.status, l.err with
    | .failedSt, some e => (.done (.error e), l)
    | _, _ => (.start, { l with status := .loading, hasPromise := true })

/-- `loadScript`: resolve immediately when `window.google.maps` already
exists, otherwise append the script tag (one network operation) which either
loads or errors. Returns the outcome, the network-operation count, and
whether `window.google` is available afterwards. -/
def gScriptRun (scriptOk : Bool) (l : GLoader) : Except MErr Unit × Nat × Bool :=
  if l.windowGoogle then (.ok (), 0, true)
  else if scriptOk then (.ok (), 1, true)
  else (.error (.error "Failed to load Google Maps API script"), 1, false)

/-- Continuation of `GoogleMapsAPILoader.load` after `await this.loadPromise`:
success records `LOADED`, failure records `FAILED` and stores the error. -/
def gLoadFinish (r : Except MErr Unit) (wg : Bool) (l : GLoader) :
    Except MErr Unit × GLoader :=
  match r with
  | .ok () => (.ok (), { l with status := .loadedSt, windowGoogle := wg })
  | .error e => (.error e, { l with status := .failedSt, err := some e })

/-- Two `GoogleMapsAPILoader.load` calls issued back to back, with the same
event-loop schedule as `urlLoadConcurrent`: both synchronous prefixes run,
then the script resolutions in issue order. When the second call hits the
single-flight guard it resolves to the value of the first call's promise.
(The `share`-first and double-`start` arms are unreachable from the states
this development quantifies over; they are completed so the function is
total.) -/
def gLoadConcurrent (scriptOk : Bool) (l : GLoader) :
    Except MErr Unit × Except MErr Unit × GLoader × Nat :=
  match gLoadStart l with
  | (.done r1, l1) =>
    match gLoadStart l1 with
    | (.done r2, l2) => (r1, r2, l2, 0)
    | (.share, l2) => (r1, r1, l2, 0)
    | (.start, l2) =>
      let sr := gScriptRun scriptOk l2
      let fin := gLoadFinish sr.1 sr.2.2 l2
      (r1, fin.1, fin.2, sr.2.1)
  | (.share, l1) => (.ok (), .ok (), l1, 0)
  | (.start, l1) =>
    match gLoadStart l1 with
    | (.done r2, l2) =>
      let sr := gScriptRun scriptOk l2
      let fin := gLoadFinish sr.1 sr.2.2 l2
      (fin.1, r2, fin.2, sr.2.1)
    | (.share, l2) =>
      let sr := gScriptRun scriptOk l2
      let fin := gLoadFinish sr.1 sr.2.2 l2
      (fin.1, fin.1, fin.2, sr.2.1)
    | (.start, l2) =>
      let sr := gScriptRun scriptOk l2
      let fin := gLoadFinish sr.1 sr.2.2 l2
      let sr2 := gScriptRun scriptOk fin.2
      let fin2 := gLoadFinish sr2.1 sr2.2.2 fin.2
      (fin.1, fin2.1, fin2.2, sr.2.1 + sr2.2.1)

/-- A loader that has never been used: `NOT_LOADED`, no promise, no error, no
`window.google`. -/
def gFreshLoader : GLoader :=
  { status := .notLoaded, hasPromise := false, err := none, windowGoogle := false }

/-! ### Layer model (core/layer.ts) -/

/-- The `LayerConfig` descriptor. `id` and `type` are plain strings; the other
fields are optional. `source` is `DataSource | string | GeoJSON`, kept as a JS
value; it is optional here because the runtime validation of the constructor
has to be able to observe a missing field. -/
structure LayerConfig where
  id : String
  type : String
  source : Option JVal := none
  style : Option JObj := none
  visible : Option Bool := none
  opacity : Option Rat := none
  minZoom : Option Rat := none
  maxZoom : Option Rat := none

/-- A `Partial<LayerConfig>` patch: every field optional, including `id` and
`type`. -/
structure LayerPatch where
  id : Option String := none
  type : Option String := none
  source : Option JVal := none
  style : Option JObj := none
  visible : Option Bool := none
  opacity : Option Rat := none
  minZoom : Option Rat := none
  maxZoom : Option Rat := none

/-- Override of one field under object spread: a property present in the
patch wins. -/
def ovr {α : Type} : Option α → Option α → Option α
  | some v, _ => some v
  | none, c => c

/-- The trailing shallow merge of `LayerManager.updateLayer`
(`\x7b...layer.config, ...updates\x7d`): every property present on the patch —
`id` and `type` included — replaces the stored one. -/
def spreadConfig (c : LayerConfig) (u : LayerPatch) : LayerConfig :=
  { id := u.id.getD c.id
    type := u.type.getD c.type
    source := ovr u.source c.source
    style := ovr u.style c.style
    visible := ovr u.visible c.visible
    opacity := ovr u.opacity c.opacity
    minZoom := ovr u.minZoom c.minZoom
    maxZoom := ovr u.maxZoom c.maxZoom }

/-- A live `BaseLayer`/`GenericLayer`: readonly `id` and `type` plus the
mutable `config`. -/
structure Layer where
  id : String
  type : String
  config : LayerConfig

/-- `BaseLayer.validateConfig` (also `LayerFactory.validateLayerConfig`):
`id`, `type` and `source` must be truthy. -/
def validateLayerConfig (c : LayerConfig) : Except MErr Unit :=
  if c.id == "" then .error (.error "Layer ID is required")
  else if c.type == "" then .error (.error "Layer type is required")
  else if !jsTruthy c.source then .error (.error "Layer source is required")
  else .ok ()

/-- `LayerFactory.createLayer` → `new GenericLayer(config)` → the `BaseLayer`
constructor: copy `id` and `type`, store the config, then validate. -/
def createLayer (c : LayerConfig) : Except MErr Layer :=
  match validateLayerConfig c with
  | .error e => .error e
  | .ok () => .ok { id := c.id, type := c.type, config := c }

/-- `BaseLayer.setStyle`: merge — `this.config.style = \x7b...this.config.style,
...style\x7d`. -/
def Layer.setStyle (l : Layer) (s : JObj) : Layer :=
  { l with config := { l.config with style := some (JObj.spread (l.config.style.getD []) s) } }

/-- `BaseLayer.setVisible`: overwrite. -/
def Layer.setVisible (l : Layer) (v : Bool) : Layer :=
  { l with config := { l.config with visible := some v } }

/-- `BaseLayer.setOpacity`: reject values outside `[0,1]`, otherwise
overwrite. -/
def Layer.setOpacity (l : Layer) (o : Rat) : Except MErr Layer :=
  if o < 0 ∨ o > 1 then .error (.error "Opacity must be between 0 and 1")
  else .ok { l with config := { l.config with opacity := some o } }

/-- `BaseLayer.setSource`: overwrite. -/
def Layer.setSource (l : Layer) (v : JVal) : Layer :=
  { l with config := { l.config with source := some v } }

/-! ### LayerManager (core/layer.ts) -/

/-- Keyed registry of live layers. -/
structure LayerManager where
  layers : List (String × Layer)

/-- `LayerManager.addLayer`: duplicate ids throw before anything is stored;
otherwise the layer is constructed by the factory (whose validation can also
throw, likewise before anything is stored) and registered. -/
def lmAddLayer (m : LayerManager) (c : LayerConfig) :
    Except MErr Layer × LayerManager :=
  if (aget m.layers c.id).isSome then
    (.error (.error ("Layer with id \"" ++ c.id ++ "\" already exists")), m)
  else
    match createLayer c with
    | .error e => (.error e, m)
    | .ok l => (.ok l, ⟨aset m.layers c.id l⟩)

/-- `LayerManager.removeLayer`: destroy (a no-op in `GenericLayer`) and
delete when present, otherwise do nothing. -/
def lmRemoveLayer (m : LayerManager) (id : String) : LayerManager :=
  match aget m.layers id with
  | some _ => ⟨adel m.layers id⟩
  | none => m

/-- Tail of `LayerManager.updateLayer` after the opacity step: the
`updates.source` truthiness check and `setSource`, then the trailing shallow
merge of the whole patch onto the stored config. -/
def lmUpdateTail (m : LayerManager) (id : String) (u : LayerPatch) (l3 : Layer) :
    Except MErr Unit × LayerManager :=
  let l4 := match u.source with
    | some v => if v.truthy then l3.setSource v else l3
    | none => l3
  let l5 := { l4 with config := spreadConfig l4.config u }
  (.ok (), ⟨aset m.layers id l5⟩)

/-- `LayerManager.updateLayer`: look up the layer (throw `not found` when
absent), then apply the patch through the layer's mutators in source order —
style (merge), visible, opacity (which can throw: the mutations already made
stay in the registry, since the JS `Map` aliases the mutated object), source —
and finally shallow-merge the whole patch onto the stored config. -/
def lmUpdateLayer (m : LayerManager) (id : String) (u : LayerPatch) :
    Except MErr Unit × LayerManager :=
  match aget m.layers id with
  | none => (.error (.error ("Layer with id \"" ++ id ++ "\" not found")), m)
  | some l0 =>
    let l1 := match u.style with
      | some st => l0.setStyle st
      | none => l0
    let l2 := match u.visible with
      | some v => l1.setVisible v
      | none => l1
    match u.opacity with
    | some o =>
      match l2.setOpacity o with
      | .error e => (.error e, ⟨aset m.layers id l2⟩)
      | .ok l3 => lmUpdateTail m id u l3
    | none => lmUpdateTail m id u l2

/-- `LayerManager.clear`. -/
def lmClear (_m : LayerManager) : LayerManager :=
  ⟨[]⟩

/-- One public mutating operation on a `LayerManager`. -/
inductive LMOp where
  | add (c : LayerConfig)
  | remove (id : String)
  | update (id : String) (u : LayerPatch)
  | clearAll

/-- The registry state after an operation (thrown errors propagate to the
caller; the registry keeps whatever state the operation left behind). -/
def LMOp.apply (m : LayerManager) : LMOp → LayerManager
  | .add c => (lmAddLayer m c).2
  | .remove id => lmRemoveLayer m id
  | .update id u => (lmUpdateLayer m id u).2
  | .clearAll => lmClear m

/-- Run a sequence of manager operations. -/
def lmRun (m : LayerManager) (ops : List LMOp) : LayerManager :=
  ops.foldl LMOp.apply m

/-! ### BaseMapProvider / GoogleMapsProvider registry (core/provider.ts, providers/google/GoogleMapsProvider.ts) -/

/-- The provider-side state that the registry claims are about: the
`BaseMapProvider.layers` map of stored `LayerConfig`s and whether the
Google layer manager has been initialized. The rendering side
(`GoogleMapsLayerManager`) only touches Google Maps objects. -/
structure GMProvider where
  layers : List (String × LayerConfig)
  hasLayerManager : Bool

/-- `GoogleMapsProvider.updateLayer`: require the layer manager, look up the
stored config (throw `not found` otherwise), shallow-merge the patch onto it
(`\x7b...layer, ...updates\x7d`), hand the merged config to the rendering layer
manager (external), and store it. No field of the patch is validated. -/
def gmUpdateLayer (p : GMProvider) (id : String) (u : LayerPatch) :
    Except MErr Unit × GMProvider :=
  if !p.hasLayerManager then
    (.error (.error "Layer manager not initialized"), p)
  else
    match aget p.layers id with
    | none => (.error (.error ("Layer " ++ id ++ " not found")), p)
    | some c =>
      let updated := spreadConfig c u
      (.ok (), { p with layers := aset p.layers id updated })

/-- The one-field patch `\x7bopacity\x7d`. -/
def opacityPatch (o : Rat) : LayerPatch :=
  { opacity := some o }

/-- The one-field patch `\x7bvisible\x7d`. -/
def visiblePatch (v : Bool) : LayerPatch :=
  { visible := some v }

/-- `BaseMapProvider.setLayerOpacity`: if the id is registered, delegate to
`updateLayer(layerId, \x7bopacity\x7d)`; otherwise do nothing. -/
def gmSetLayerOpacity (p : GMProvider) (id : String) (o : Rat) :
    Except MErr Unit × GMProvider :=
  match aget p.layers id with
  | some _ => gmUpdateLayer p id (opacityPatch o)
  | none => (.ok (), p)

/-- `BaseMapProvider.setLayerVisibility`: same shape with `\x7bvisible\x7d`. -/
def gmSetLayerVisibility (p : GMProvider) (id : String) (v : Bool) :
    Except MErr Unit × GMProvider :=
  match aget p.layers id with
  | some _ => gmUpdateLayer p id (visiblePatch v)
  | none => (.ok (), p)

/-! ### UniversalMap facade (core/UniversalMap.ts) -/

/-- The facade state the guard claims are about: the `initialized` flag and
whether a provider handle is set. Delegated provider calls are external
collaborators and are modelled as succeeding once the guard passes. -/
structure UMap where
  providerName : String
  initialized : Bool
  hasProvider : Bool

/-- `UniversalMap.ensureInitialized`: throw `MapError(..., 'NOT_INITIALIZED')`
unless `initialize()` has completed and a provider is set. -/
def umEnsureInit (m : UMap) : Except MErr Unit :=
  if !m.initialized || !m.hasProvider then
    .error (.mapError "Map not initialized. Call initialize() first." "NOT_INITIALIZED")
  else .ok ()

/-- `UniversalMap.getViewState`: guard, then delegate. -/
def umGetViewState (m : UMap) : Except MErr Unit := umEnsureInit m

/-- `UniversalMap.setViewState`: guard, then delegate. -/
def umSetViewState (m : UMap) : Except MErr Unit := umEnsureInit m

/-- `UniversalMap.getBounds`: guard, then delegate. -/
def umGetBounds (m : UMap) : Except MErr Unit := umEnsureInit m

/-- `UniversalMap.fitBounds`: guard, then delegate. -/
def umFitBounds (m : UMap) : Except MErr Unit := umEnsureInit m

/-- `UniversalMap.addLayer`: guard, then delegate. -/
def umAddLayer (m : UMap) : Except MErr Unit := umEnsureInit m

/-- `UniversalMap.removeLayer`: guard, then delegate. -/
def umRemoveLayer (m : UMap) : Except MErr Unit := umEnsureInit m

/-- `UniversalMap.updateLayer`: guard, then delegate. -/
def umUpdateLayer (m : UMap) : Except MErr Unit := umEnsureInit m

/-- `UniversalMap.getLayer`: guard, then delegate. -/
def umGetLayer (m : UMap) : Except MErr Unit := umEnsureInit m

/-- `UniversalMap.getLayers`: guard, then delegate. -/
def umGetLayers (m : UMap) : Except MErr Unit := umEnsureInit m

/-- `UniversalMap.setLayerVisibility`: guard, then delegate. -/
def umSetLayerVisibility (m : UMap) : Except MErr Unit := umEnsureInit m

/-- `UniversalMap.setLayerOpacity`: guard, then delegate. -/
def umSetLayerOpacity (m : UMap) : Except MErr Unit := umEnsureInit m

/-- `UniversalMap.resize`: `if (this.provider) this.provider.resize()` — no
`ensureInitialized` guard and no throw on either path. -/
def umResize (_m : UMap) : Except MErr Unit := .ok ()

/-- `UniversalMap.initialize`: when already initialized, emit the
`console.warn('Map is already initialized')` diagnostic (third component) and
return without touching any state; otherwise `createProvider` — which in this
revision throws `PROVIDER_NOT_FOUND` for every provider name — makes the call
fail wrapped as `INIT_ERROR`, leaving `initialized` false and the provider
unset. -/
def umInitCall (m : UMap) : Except MErr Unit × UMap × Bool :=
  if m.initialized then (.ok (), m, true)
  else
    (.error (.mapError
      ("Failed to initialize map: Provider \"" ++ m.providerName
        ++ "\" not yet implemented. Available providers will be added in the next phase.")
      "INIT_ERROR"), m, false)

/-! ### Association-list lemmas -/

theorem aget_cons {α : Type} (p : String × α) (rest : List (String × α)) (k : String) :
    aget (p :: rest) k = if p.1 == k then some p.2 else aget rest k := by
  by_cases h : p.1 == k <;> simp [aget, List.find?_cons, h]

theorem aget_aset_self {α : Type} (m : List (String × α)) (k : String) (v : α) :
    aget (aset m k v) k = some v := by
  induction m with
  | nil => simp [aset, aget_cons]
  | cons p rest ih =>
    by_cases h : p.1 == k
    · simp [aset, h, aget_cons]
    · simp [aset, h, aget_cons, ih]

theorem aget_aset_ne {α : Type} (m : List (String × α)) (k k' : String) (v : α)
    (h : k' ≠ k) : aget (aset m k v) k' = aget m k' := by
  induction m with
  | nil => simp [aset, aget_cons, aget, Ne.symm h]
  | cons p rest ih =>
    by_cases hp : p.1 == k
    · have hpk : p.1 = k := by simpa using hp
      simp [aset, hp, aget_cons, Ne.symm h, hpk]
    · simp [aset, hp, aget_cons, ih]

theorem mem_aset {α : Type} {m : List (String × α)} {k : String} {v : α}
    {x : String × α} (hx : x ∈ aset m k v) : x = (k, v) ∨ x ∈ m := by
  induction m with
  | nil => simpa [aset] using hx
  | cons p rest ih =>
    by_cases h : p.1 == k
    · simp [aset, h] at hx
      rcases hx with hx | hx
      · exact .inl (by simp [hx])
      · exact .inr (by simp [hx])
    · simp [aset, h] at hx
      rcases hx with hx | hx
      · exact .inr (by simp [hx])
      · rcases ih hx with hh | hh
        · exact .inl hh
        · exact .inr (by simp [hh])

theorem aget_eq_some_mem {α : Type} {m : List (String × α)} {k : String} {v : α}
    (h : aget m k = some v) : (k, v) ∈ m := by
  unfold aget at h
  cases hf : m.find? (fun p => p.1 == k) with
  | none => rw [hf] at h; cases h
  | some p =>
    rw [hf] at h
    have hp : (p.1 == k) = true := by simpa using List.find?_some hf
    have hmem : p ∈ m := List.mem_of_find?_eq_some hf
    have hk : p.1 = k := by simpa using hp
    have hv : p.2 = v := by simpa using h
    have : p = (k, v) := by
      cases p
      simp_all
    rwa [this] at hmem

theorem mem_adel {α : Type} {m : List (String × α)} {k : String}
    {x : String × α} (hx : x ∈ adel m k) : x ∈ m :=
  (List.mem_filter.mp hx).1

/-! ### Concrete fixtures -/

/-- A minimal valid layer descriptor with id `a`. -/
def cfgA : LayerConfig :=
  { id := "a", type := "geojson", source := some (.str "mock://fixture") }

/-- The layer the manager constructs from `cfgA`. -/
def layerA : Layer :=
  { id := "a", type := "geojson", config := cfgA }

/-- A manager already holding the layer `a`. -/
def mgrA : LayerManager :=
  ⟨[("a", layerA)]⟩

/-- An inline GeoJSON FeatureCollection, as `normalizeSource` receives it. -/
def geoFC : JObj :=
  [("type", .str "FeatureCollection"), ("features", .arr [])]

/-- A URL-backed data source that has not been loaded yet. -/
def urlSrc : DSInstance :=
  mkBaseDataSource { type := "url", url := some "https://x/data.json" }

/-- A network where every fetch succeeds with a non-empty JSON object. -/
def envOkObj : FetchEnv :=
  fun _ => .ok (.obj [("ok", .bool true)])

/-- A facade that has not been initialized. -/
def umFresh : UMap :=
  { providerName := "google", initialized := false, hasProvider := false }

/-- The error `ensureInitialized` throws. -/
def notInitErr : MErr :=
  .mapError "Map not initialized. Call initialize() first." "NOT_INITIALIZED"

/-! ### C6 — duplicate addLayer -/

/-- C6: when a layer with the descriptor's id is already registered, a second
`addLayer` throws the duplicate-id error and the registry is exactly as
before the call — in particular the id still maps to the original layer
object. -/
theorem addLayer_duplicate_id_fails_registry_unchanged
    (m : LayerManager) (c : LayerConfig) (l : Layer)
    (h : aget m.layers c.id = some l) :
    lmAddLayer m c
      = (.error (.error ("Layer with id \"" ++ c.id ++ "\" already exists")), m)
    ∧ aget (lmAddLayer m c).2.layers c.id = some l := by
  have hd : (aget m.layers c.id).isSome = true := by simp [h]
  constructor
  · simp [lmAddLayer, hd]
  · simp [lmAddLayer, hd, h]

/-- Witness for C6 at a concrete registry. -/
theorem addLayer_duplicate_id_fails_registry_unchanged_witness :
    lmAddLayer mgrA cfgA
      = (.error (.error ("Layer with id \"" ++ cfgA.id ++ "\" already exists")), mgrA)
    ∧ aget (lmAddLayer mgrA cfgA).2.layers cfgA.id = some layerA :=
  addLayer_duplicate_id_fails_registry_unchanged mgrA cfgA layerA rfl

/-! ### C10 — registerSource displaces silently, without destroy -/

/-- C10: on a registry that already holds the id, `registerSource` succeeds,
replaces the entry with a freshly constructed instance (last-write-wins),
invokes `destroy()` on nothing — whereas `removeSource` destroys the held
instance before deleting it. -/
theorem registerSource_replaces_without_destroy
    (m : DSManager) (id : String) (cfg : DSConfig) (old : DSInstance)
    (hold : aget m.sources id = some old)
    (htag : recognizedSourceTag cfg.type = true) :
    (dsRegisterSource m id cfg).1 = .ok (mkBaseDataSource cfg)
    ∧ aget (dsRegisterSource m id cfg).2.1.sources id = some (mkBaseDataSource cfg)
    ∧ (dsRegisterSource m id cfg).2.2 = []
    ∧ dsRemoveSource m id = (⟨adel m.sources id⟩, [old]) := by
  have hc : createDataSource cfg = .ok (mkBaseDataSource cfg) := by
    simp [recognizedSourceTag] at htag
    rcases htag with ((((h | h) | h) | h) | h) <;> simp [createDataSource, h]
  refine ⟨?_, ?_, ?_, ?_⟩
  · simp [dsRegisterSource, hc]
  · simp [dsRegisterSource, hc, aget_aset_self]
  · simp [dsRegisterSource, hc]
  · simp [dsRemoveSource, hold]

/-- The instance displaced in the C10 witness. -/
def dsOld : DSInstance :=
  mkBaseDataSource { type := "url", url := some "https://old.example/d.json" }

/-- A data-source registry already holding id `s`. -/
def dsMgr : DSManager :=
  ⟨[("s", dsOld)]⟩

/-- The replacing descriptor in the C10 witness. -/
def dsNewCfg : DSConfig :=
  { type := "geojson", data := some (.str "https://new.example/d.json") }

/-- Witness for C10 at a concrete registry. -/
theorem registerSource_replaces_without_destroy_witness :
    (dsRegisterSource dsMgr "s" dsNewCfg).1 = .ok (mkBaseDataSource dsNewCfg)
    ∧ aget (dsRegisterSource dsMgr "s" dsNewCfg).2.1.sources "s"
        = some (mkBaseDataSource dsNewCfg)
    ∧ (dsRegisterSource dsMgr "s" dsNewCfg).2.2 = []
    ∧ dsRemoveSource dsMgr "s" = (⟨adel dsMgr.sources "s"⟩, [dsOld]) :=
  registerSource_replaces_without_destroy dsMgr "s" dsNewCfg dsOld rfl rfl

/-! ### C2 — normalizeSource on objects -/

/-- C2 counterexample: an inline GeoJSON FeatureCollection — whose own `type`
property (`'FeatureCollection'`) is truthy — is passed through unchanged
instead of being wrapped as `\x7btype:'geojson', data:<object>\x7d` as the claim
states. -/
theorem normalizeSource_passes_inline_geojson_through :
    normalizeSource (.obj geoFC) = geoFC
    ∧ normalizeSource (.obj geoFC)
        ≠ [("type", .str "geojson"), ("data", .obj geoFC)] := by
  have h1 : normalizeSource (.obj geoFC) = geoFC := rfl
  refine ⟨h1, ?_⟩
  rw [h1]
  intro h
  have hg : JObj.get geoFC "type" = some (.str "FeatureCollection") := rfl
  have hw : JObj.get [("type", .str "geojson"), ("data", .obj geoFC)] "type"
      = some (.str "geojson") := rfl
  have hc := hg.symm.trans ((congrArg (fun o : JObj => JObj.get o "type") h).trans hw)
  have hs : ("FeatureCollection" : String) = "geojson" := by
    injection hc with hc1
    injection hc1
  exact (by decide : ("FeatureCollection" : String) ≠ "geojson") hs

/-- C2 as amended: an object whose `type` property is present and truthy —
recognized DataSource tag or not — is passed through unchanged (in particular
every object carrying a recognized tag is), an object without a truthy `type`
is wrapped as inline GeoJSON, and the string clauses produce the mock/url
descriptors; normalization is a total function. -/
theorem normalizeSource_characterization :
    (∀ o : JObj, jsTruthy (o.get "type") = true → normalizeSource (.obj o) = o)
    ∧ (∀ o : JObj, ∀ t : String, o.get "type" = some (.str t) →
        recognizedSourceTag t = true → normalizeSource (.obj o) = o)
    ∧ (∀ o : JObj, jsTruthy (o.get "type") = false →
        normalizeSource (.obj o) = [("type", .str "geojson"), ("data", .obj o)])
    ∧ (∀ s : String, strStarts s "mock://" = true →
        normalizeSource (.str s) = [("type", .str "mock"), ("data", .str s)])
    ∧ (∀ s : String, strStarts s "mock://" = false →
        normalizeSource (.str s) = [("type", .str "url"), ("url", .str s)]) := by
  refine ⟨?_, ?_, ?_, ?_, ?_⟩
  · intro o h; simp [normalizeSource, h]
  · intro o t ht hr
    have htr : jsTruthy (o.get "type") = true := by
      simp [recognizedSourceTag] at hr
      rcases hr with ((((h | h) | h) | h) | h) <;> subst h <;>
        simp [ht, jsTruthy, JVal.truthy]
    simp [normalizeSource, htr]
  · intro o h; simp [normalizeSource, h]
  · intro s h; simp [normalizeSource, h]
  · intro s h; simp [normalizeSource, h]

/-- Witness for the C2 characterization at concrete objects. -/
theorem normalizeSource_characterization_witness :
    normalizeSource (.obj [("type", .str "url"), ("url", .str "https://x")])
      = [("type", .str "url"), ("url", .str "https://x")]
    ∧ normalizeSource (.obj [("features", .arr [])])
      = [("type", .str "geojson"), ("data", .obj [("features", .arr [])])]
    ∧ normalizeSource (.str "mock://buildings")
      = [("type", .str "mock"), ("data", .str "mock://buildings")] :=
  ⟨normalizeSource_characterization.2.1 [("type", .str "url"), ("url", .str "https://x")]
      "url" rfl rfl,
   normalizeSource_characterization.2.2.1 [("features", .arr [])] rfl,
   normalizeSource_characterization.2.2.2.1 "mock://buildings" rfl⟩

/-! ### C8 — facade guards -/

/-- C8 counterexample: on an uninitialized facade, `resize()` returns
normally (it has no `ensureInitialized` guard) while e.g. `getViewState`
throws `NOT_INITIALIZED` — so `resize` does not fail as the claim states. -/
theorem resize_uninitialized_returns_ok :
    umResize umFresh = .ok ()
    ∧ umGetViewState umFresh = .error notInitErr :=
  ⟨rfl, rfl⟩

/-- C8 as amended: before a successful `initialize()` every spatial/layer
operation except `resize` throws `NOT_INITIALIZED`; `resize` never throws
(silent no-op without a provider); and a second `initialize()` on an already
initialized facade is a no-op that emits the `console.warn` diagnostic
(third component `true`) and no error. -/
theorem facade_guard_characterization :
    (∀ m : UMap, m.initialized = false ∨ m.hasProvider = false →
      umGetViewState m = .error notInitErr
      ∧ umSetViewState m = .error notInitErr
      ∧ umGetBounds m = .error notInitErr
      ∧ umFitBounds m = .error notInitErr
      ∧ umAddLayer m = .error notInitErr
      ∧ umRemoveLayer m = .error notInitErr
      ∧ umUpdateLayer m = .error notInitErr
      ∧ umGetLayer m = .error notInitErr
      ∧ umGetLayers m = .error notInitErr
      ∧ umSetLayerVisibility m = .error notInitErr
      ∧ umSetLayerOpacity m = .error notInitErr)
    ∧ (∀ m : UMap, umResize m = .ok ())
    ∧ (∀ m : UMap, m.initialized = true → umInitCall m = (.ok (), m, true)) := by
  refine ⟨?_, ?_, ?_⟩
  · intro m h
    have hg : umEnsureInit m = .error notInitErr := by
      rcases h with h | h <;> simp [umEnsureInit, h, notInitErr]
    exact ⟨hg, hg, hg, hg, hg, hg, hg, hg, hg, hg, hg⟩
  · intro m; rfl
  · intro m h; simp [umInitCall, h]

/-- Witness for the C8 characterization at concrete facade states. -/
theorem facade_guard_characterization_witness :
    umSetLayerOpacity umFresh = .error notInitErr
    ∧ umResize umFresh = .ok ()
    ∧ umInitCall { providerName := "google", initialized := true, hasProvider := true }
        = (.ok (), { providerName := "google", initialized := true, hasProvider := true }, true) :=
  ⟨(facade_guard_characterization.1 umFresh (Or.inl rfl)).2.2.2.2.2.2.2.2.2.2,
   facade_guard_characterization.2.1 umFresh,
   facade_guard_characterization.2.2
     { providerName := "google", initialized := true, hasProvider := true } rfl⟩

/-! ### C1 — updateLayer style patch -/

/-- A layer descriptor whose style already holds `fillColor`. -/
def cfgStyled : LayerConfig :=
  { id := "s", type := "geojson", source := some (.str "mock://fixture"),
    style := some [("fillColor", .str "red")] }

/-- A manager that just registered `cfgStyled` through `addLayer`. -/
def mgrStyled : LayerManager :=
  (lmAddLayer ⟨[]⟩ cfgStyled).2

/-- The patch `\x7bstyle: \x7bopacity: 0.5\x7d\x7d`. -/
def stylePatch : LayerPatch :=
  { style := some [("opacity", .num (1/2))] }

/-- C1 (code bug, evaluated at the failing input): after
`updateLayer("s", \x7bstyle:\x7bopacity:0.5\x7d\x7d)` the stored style is exactly the raw
patch — the `fillColor` set earlier is gone, because the trailing shallow
merge `\x7b...layer.config, ...updates\x7d` copies the patch's `style` property over
the style that `setStyle` had just merged (last conjunct: the merge the claim
describes did produce the combined map before being overwritten). -/
theorem updateLayer_trailing_merge_discards_merged_style :
    (lmUpdateLayer mgrStyled "s" stylePatch).1 = .ok ()
    ∧ ((aget (lmUpdateLayer mgrStyled "s" stylePatch).2.layers "s").map
        (fun l => l.config.style)) = some (some [("opacity", .num (1/2))])
    ∧ ((aget (lmUpdateLayer mgrStyled "s" stylePatch).2.layers "s").map
        (fun l => JObj.get (l.config.style.getD []) "fillColor")) = some none
    ∧ JObj.spread [("fillColor", .str "red")] [("opacity", .num (1/2))]
        = [("fillColor", .str "red"), ("opacity", .num (1/2))] :=
  ⟨rfl, rfl, rfl, rfl⟩

/-! ### C4 — failing updateLayer is not atomic -/

/-- A layer descriptor with `visible: false` and a valid opacity. -/
def cfgVis : LayerConfig :=
  { id := "b", type := "geojson", source := some (.str "mock://fixture"),
    visible := some false, opacity := some 1 }

/-- The layer the manager holds for `cfgVis`. -/
def layerB : Layer :=
  { id := "b", type := "geojson", config := cfgVis }

/-- A manager already holding the layer `b`. -/
def mgrVis : LayerManager :=
  ⟨[("b", layerB)]⟩

/-- A patch with a valid `visible` flag and an out-of-range opacity. -/
def badPatch : LayerPatch :=
  { visible := some true, opacity := some 2 }

/-- C4 counterexample: `updateLayer("b", \x7bvisible:true, opacity:2\x7d)` throws the
opacity validation error, yet the stored layer's `visible` has already been
flipped from `false` to `true` — the registry is left partially mutated, not
"exactly as it was before the call". -/
theorem updateLayer_failure_leaves_partial_mutation :
    (lmUpdateLayer mgrVis "b" badPatch).1
      = .error (.error "Opacity must be between 0 and 1")
    ∧ ((aget mgrVis.layers "b").map (fun l => l.config.visible)) = some (some false)
    ∧ ((aget (lmUpdateLayer mgrVis "b" badPatch).2.layers "b").map
        (fun l => l.config.visible)) = some (some true)
    ∧ ((aget (lmUpdateLayer mgrVis "b" badPatch).2.layers "b").map
        (fun l => l.config.opacity)) = some (some 1) :=
  ⟨rfl, rfl, rfl, rfl⟩

/-- The style and visibility steps of `updateLayer` — the mutations that have
already happened when the opacity validation throws. -/
def applyStyleVisible (l : Layer) (u : LayerPatch) : Layer :=
  let l1 := match u.style with
    | some st => l.setStyle st
    | none => l
  match u.visible with
  | some v => l1.setVisible v
  | none => l1

theorem applyStyleVisible_opacity (l : Layer) (u : LayerPatch) :
    (applyStyleVisible l u).config.opacity = l.config.opacity := by
  rcases hs : u.style with _ | st <;> rcases hv : u.visible with _ | v <;>
    simp [applyStyleVisible, hs, hv, Layer.setStyle, Layer.setVisible]

theorem applyStyleVisible_visible (l : Layer) (u : LayerPatch) :
    (applyStyleVisible l u).config.visible
      = (match u.visible with | some v => some v | none => l.config.visible) := by
  rcases hs : u.style with _ | st <;> rcases hv : u.visible with _ | v <;>
    simp [applyStyleVisible, hs, hv, Layer.setStyle, Layer.setVisible]

/-- C4 as amended: a failing `addLayer` leaves the registry exactly as
before, but a failing `updateLayer` does not: with a patch carrying an
out-of-range opacity the call throws the opacity validation error after the
style and visibility mutators have already run against the stored layer
(which stays mutated in the registry); the opacity field itself is unchanged
and the visibility field holds the patch value when one was given. -/
theorem addLayer_atomic_updateLayer_not
    (m : LayerManager) (c : LayerConfig) (id : String) (u : LayerPatch)
    (l : Layer) (o : Rat)
    (hl : aget m.layers id = some l)
    (ho : u.opacity = some o)
    (hrange : o < 0 ∨ o > 1) :
    (∀ e, (lmAddLayer m c).1 = .error e → (lmAddLayer m c).2 = m)
    ∧ (lmUpdateLayer m id u).1 = .error (.error "Opacity must be between 0 and 1")
    ∧ (lmUpdateLayer m id u).2 = ⟨aset m.layers id (applyStyleVisible l u)⟩
    ∧ ((aget (lmUpdateLayer m id u).2.layers id).map (fun x => x.config.opacity))
        = some l.config.opacity
    ∧ ((aget (lmUpdateLayer m id u).2.layers id).map (fun x => x.config.visible))
        = some (match u.visible with | some v => some v | none => l.config.visible) := by
  have hup : lmUpdateLayer m id u
      = (.error (.error "Opacity must be between 0 and 1"),
         ⟨aset m.layers id (applyStyleVisible l u)⟩) := by
    rcases hs : u.style with _ | st <;> rcases hv : u.visible with _ | v <;>
      simp [lmUpdateLayer, hl, ho, hs, hv, applyStyleVisible, Layer.setOpacity,
        if_pos hrange]
  refine ⟨?_, ?_, ?_, ?_, ?_⟩
  · intro e he
    by_cases hd : (aget m.layers c.id).isSome
    · simp [lmAddLayer, hd]
    · cases hcr : createLayer c with
      | error e2 => simp [lmAddLayer, hd, hcr]
      | ok l2 => simp [lmAddLayer, hd, hcr] at he
  · rw [hup]
  · rw [hup]
  · rw [hup]
    simp [aget_aset_self, applyStyleVisible_opacity]
  · rw [hup]
    simp [aget_aset_self, applyStyleVisible_visible]

/-- Witness for the C4 amendment at a concrete registry and patch. -/
theorem addLayer_atomic_updateLayer_not_witness :
    (∀ e, (lmAddLayer mgrVis cfgVis).1 = .error e → (lmAddLayer mgrVis cfgVis).2 = mgrVis)
    ∧ (lmUpdateLayer mgrVis "b" badPatch).1
        = .error (.error "Opacity must be between 0 and 1")
    ∧ (lmUpdateLayer mgrVis "b" badPatch).2
        = ⟨aset mgrVis.layers "b" (applyStyleVisible layerB badPatch)⟩
    ∧ ((aget (lmUpdateLayer mgrVis "b" badPatch).2.layers "b").map
        (fun x => x.config.opacity)) = some layerB.config.opacity
    ∧ ((aget (lmUpdateLayer mgrVis "b" badPatch).2.layers "b").map
        (fun x => x.config.visible))
        = some (match badPatch.visible with | some v => some v | none => layerB.config.visible) :=
  addLayer_atomic_updateLayer_not mgrVis cfgVis "b" badPatch layerB 2 rfl rfl
    (Or.inr (by decide))

/-! ### C5 — facade setLayerOpacity path -/

/-- A provider-registry descriptor with a valid opacity. -/
def gmCfgA : LayerConfig :=
  { id := "a", type := "geojson", source := some (.str "mock://fixture"),
    opacity := some 1 }

/-- A Google provider with its layer manager initialized and layer `a`
registered. -/
def gmProv : GMProvider :=
  { layers := [("a", gmCfgA)], hasLayerManager := true }

/-- C5 counterexample: `setLayerOpacity("a", 2)` on the provider succeeds and
stores the out-of-range opacity — no `ValidationError` is thrown and the
stored value changes, contradicting both halves of the claim. -/
theorem setLayerOpacity_stores_out_of_range :
    (gmSetLayerOpacity gmProv "a" 2).1 = .ok ()
    ∧ ((aget (gmSetLayerOpacity gmProv "a" 2).2.layers "a").map (fun c => c.opacity))
        = some (some 2)
    ∧ ((aget gmProv.layers "a").map (fun c => c.opacity)) = some (some 1) :=
  ⟨rfl, rfl, rfl⟩

/-- C5 as amended: the facade sugar does delegate to
`updateLayer(id, \x7bopacity\x7d)` / `\x7bvisible\x7d` (and is a silent no-op for an
unregistered id), but that provider path performs no opacity validation:
any value, in range or not, is stored as-is. The `[0,1]` check exists only in
`BaseLayer.setOpacity` on the core `LayerManager.updateLayer` path, which is
not reached from the facade. -/
theorem setLayerOpacity_provider_path_unvalidated
    (p : GMProvider) (id : String) (o : Rat) (v : Bool) (c : LayerConfig)
    (hm : p.hasLayerManager = true) (hc : aget p.layers id = some c) :
    gmSetLayerOpacity p id o = gmUpdateLayer p id (opacityPatch o)
    ∧ gmSetLayerVisibility p id v = gmUpdateLayer p id (visiblePatch v)
    ∧ (gmSetLayerOpacity p id o).1 = .ok ()
    ∧ ((aget (gmSetLayerOpacity p id o).2.layers id).map (fun x => x.opacity))
        = some (some o)
    ∧ (∀ id2, aget p.layers id2 = none → gmSetLayerOpacity p id2 o = (.ok (), p))
    ∧ (∀ (m : LayerManager) (l : Layer), aget m.layers id = some l →
        o < 0 ∨ o > 1 →
        (lmUpdateLayer m id (opacityPatch o)).1
            = .error (.error "Opacity must be between 0 and 1")
        ∧ ((aget (lmUpdateLayer m id (opacityPatch o)).2.layers id).map
            (fun x => x.config.opacity)) = some l.config.opacity) := by
  refine ⟨?_, ?_, ?_, ?_, ?_, ?_⟩
  · simp [gmSetLayerOpacity, hc]
  · simp [gmSetLayerVisibility, hc]
  · simp [gmSetLayerOpacity, gmUpdateLayer, hc, hm]
  · simp [gmSetLayerOpacity, gmUpdateLayer, hc, hm, aget_aset_self,
      spreadConfig, opacityPatch, ovr]
  · intro id2 h2
    simp [gmSetLayerOpacity, h2]
  · intro m l hml hr
    constructor
    · simp [lmUpdateLayer, hml, opacityPatch, Layer.setOpacity, if_pos hr]
    · simp [lmUpdateLayer, hml, opacityPatch, Layer.setOpacity, if_pos hr,
        aget_aset_self]

/-- Witness for the C5 amendment at a concrete provider and registry. -/
theorem setLayerOpacity_provider_path_unvalidated_witness :
    gmSetLayerOpacity gmProv "a" 2 = gmUpdateLayer gmProv "a" (opacityPatch 2)
    ∧ ((aget (gmSetLayerOpacity gmProv "a" 2).2.layers "a").map (fun x => x.opacity))
        = some (some 2)
    ∧ (lmUpdateLayer mgrA "a" (opacityPatch 2)).1
        = .error (.error "Opacity must be between 0 and 1") := by
  have h := setLayerOpacity_provider_path_unvalidated gmProv "a" 2 true gmCfgA rfl rfl
  exact ⟨h.1, h.2.2.2.1, (h.2.2.2.2.2 mgrA layerA rfl (Or.inr (by decide))).1⟩

/-! ### C3 — no single flight on URLDataSource -/

/-- C3 counterexample: two concurrent `load()` calls on the not-yet-loaded
URL source issue two fetches, not one. (Both resolve with the payload, but the
"exactly one network fetch" half of the claim is false — `URLDataSource` has
no single-flight guard.) -/
theorem urlDataSource_concurrent_load_two_fetches :
    (urlLoadConcurrent envOkObj urlSrc).2.2.2 = 2
    ∧ (urlLoadConcurrent envOkObj urlSrc).1 = .ok (.obj [("ok", .bool true)])
    ∧ (urlLoadConcurrent envOkObj urlSrc).2.1 = .ok (.obj [("ok", .bool true)]) :=
  ⟨rfl, rfl, rfl⟩

/-- C3 as amended: on any not-yet-memoized URL source with a usable URL, two
concurrent `load()` calls perform two fetches — `URLDataSource.load` has no
single-flight guard; the single-flight pattern the spec refers to exists only
in `GoogleMapsAPILoader.load`, where two concurrent calls on a fresh loader
perform exactly one script load and resolve identically. -/
theorem concurrent_url_load_duplicates_loader_single_flights
    (env : FetchEnv) (s : DSInstance) (u : String)
    (hmemo : (s.loaded && s.data.truthy) = false)
    (hurl : s.config.url = some u) (hne : (u == "") = false) :
    (urlLoadConcurrent env s).2.2.2 = 2
    ∧ gLoadConcurrent true gFreshLoader
        = (.ok (), .ok (),
           { status := .loadedSt, hasPromise := true, err := none, windowGoogle := true },
           1) := by
  constructor
  · simp [urlLoadConcurrent, urlLoadStart, hmemo, hurl, hne]
  · rfl

/-- Witness for the C3 amendment at the concrete URL source. -/
theorem concurrent_url_load_duplicates_loader_single_flights_witness :
    (urlLoadConcurrent envOkObj urlSrc).2.2.2 = 2
    ∧ gLoadConcurrent true gFreshLoader
        = (.ok (), .ok (),
           { status := .loadedSt, hasPromise := true, err := none, windowGoogle := true },
           1) :=
  concurrent_url_load_duplicates_loader_single_flights envOkObj urlSrc
    "https://x/data.json" rfl rfl rfl

/-! ### C7 — memoized load and failure handling -/

/-- A network whose response body is the JSON document `null` — well-formed,
but falsy in the memo guard. -/
def envNull : FetchEnv :=
  fun _ => .ok .null

/-- A URL source already loaded with a truthy payload. -/
def urlLoaded : DSInstance :=
  { type := "url", config := { type := "url", url := some "https://x/data.json" },
    loaded := true, data := .obj [("ok", .bool true)] }

/-- A network where every fetch yields a non-success response. -/
def envHttpErr : FetchEnv :=
  fun _ => .httpErr "Not Found"

/-- C7 counterexample: after a fetch whose JSON body is `null`, the instance
is LOADED (`isLoaded()` true), yet the next `load()` performs another fetch —
the memo guard `this.loaded && this.data` rejects the falsy payload, so the
call is not the fetch-free idempotent return the claim states. -/
theorem urlLoad_refetches_falsy_payload :
    ((urlLoad envNull urlSrc).2.1).loaded = true
    ∧ (urlLoad envNull urlSrc).2.2 = 1
    ∧ (urlLoad envNull ((urlLoad envNull urlSrc).2.1)).2.2 = 1 :=
  ⟨rfl, rfl, rfl⟩

/-- C7 as amended: when the instance is LOADED **with a truthy payload**,
`load()` returns the memoized payload with no fetch and no state change, for
both the URL variant and the geojson variant; and a non-success response or a
transport failure makes the call throw with the cause while leaving the
instance state — in particular `loaded` — exactly as before (so a
not-yet-loaded instance is not marked LOADED). A LOADED instance whose
payload is falsy (e.g. the JSON document `null`) is refetched instead. -/
theorem load_memo_truthy_and_failure_not_loaded
    (env : FetchEnv) (s : DSInstance) :
    (s.loaded = true → s.data.truthy = true →
      urlLoad env s = (.ok s.data, s, 0) ∧ geojsonLoad env s = (.ok s.data, s, 0))
    ∧ (∀ u st, s.config.url = some u → (u == "") = false →
        (s.loaded && s.data.truthy) = false → env u = .httpErr st →
        urlLoad env s = (.error (.error ("Failed to load data: " ++ st)), s, 1))
    ∧ (∀ u msg, s.config.url = some u → (u == "") = false →
        (s.loaded && s.data.truthy) = false → env u = .netErr msg →
        urlLoad env s = (.error (.error msg), s, 1))
    ∧ (∀ u st, s.config.data = some (.str u) →
        (s.loaded && s.data.truthy) = false → env u = .httpErr st →
        geojsonLoad env s = (.error (.error ("Failed to load GeoJSON: " ++ st)), s, 1))
    ∧ (∀ u msg, s.config.data = some (.str u) →
        (s.loaded && s.data.truthy) = false → env u = .netErr msg →
        geojsonLoad env s = (.error (.error msg), s, 1)) := by
  refine ⟨?_, ?_, ?_, ?_, ?_⟩
  · intro hl hd
    constructor
    · simp [urlLoad, urlLoadStart, hl, hd]
    · simp [geojsonLoad, hl, hd]
  · intro u st hu hne hmemo henv
    simp [urlLoad, urlLoadStart, urlLoadFinish, hmemo, hu, hne, henv]
  · intro u msg hu hne hmemo henv
    simp [urlLoad, urlLoadStart, urlLoadFinish, hmemo, hu, hne, henv]
  · intro u st hd hmemo henv
    simp [geojsonLoad, hmemo, hd, henv]
  · intro u msg hd hmemo henv
    simp [geojsonLoad, hmemo, hd, henv]

/-- Witness for the C7 amendment at concrete sources and networks. -/
theorem load_memo_truthy_and_failure_not_loaded_witness :
    urlLoad envOkObj urlLoaded = (.ok urlLoaded.data, urlLoaded, 0)
    ∧ urlLoad envHttpErr urlSrc
        = (.error (.error ("Failed to load data: " ++ "Not Found")), urlSrc, 1) :=
  ⟨((load_memo_truthy_and_failure_not_loaded envOkObj urlLoaded).1 rfl rfl).1,
   (load_memo_truthy_and_failure_not_loaded envHttpErr urlSrc).2.1
     "https://x/data.json" "Not Found" rfl rfl rfl rfl⟩

/-! ### C9 — identity of stored layers -/

theorem lmUpdateTail_aset (m : LayerManager) (id : String) (u : LayerPatch) (l3 : Layer) :
    ∃ l', (lmUpdateTail m id u l3).2.layers = aset m.layers id l'
      ∧ l'.id = l3.id ∧ l'.type = l3.type := by
  rcases hs : u.source with _ | sv
  · refine ⟨{ l3 with config := spreadConfig l3.config u }, ?_, rfl, rfl⟩
    simp [lmUpdateTail, hs]
  · by_cases ht : sv.truthy
    · refine ⟨{ l3.setSource sv with config := spreadConfig (l3.setSource sv).config u },
        ?_, rfl, rfl⟩
      simp [lmUpdateTail, hs, ht]
    · refine ⟨{ l3 with config := spreadConfig l3.config u }, ?_, rfl, rfl⟩
      simp [lmUpdateTail, hs, ht]

theorem lmUpdateLayer_aset (m : LayerManager) (id : String) (u : LayerPatch) (l0 : Layer)
    (h : aget m.layers id = some l0) :
    ∃ l', (lmUpdateLayer m id u).2.layers = aset m.layers id l'
      ∧ l'.id = l0.id ∧ l'.type = l0.type := by
  rcases hs : u.style with _ | st <;> rcases hv : u.visible with _ | v <;>
      rcases ho : u.opacity with _ | o <;>
    simp only [lmUpdateLayer, h, hs, hv, ho]
  all_goals try exact lmUpdateTail_aset m id u _
  all_goals
    by_cases hr : o < 0 ∨ o > 1
  all_goals try (simp only [Layer.setOpacity, if_pos hr]; exact ⟨_, rfl, rfl, rfl⟩)
  all_goals simp only [Layer.setOpacity, if_neg hr]
  all_goals exact lmUpdateTail_aset m id u _

/-- Invariant: every stored layer's immutable `id` equals its registry key. -/
def lmGoodKeys (m : LayerManager) : Prop :=
  ∀ p ∈ m.layers, (p.2).id = p.1

theorem createLayer_ok_shape (c : LayerConfig) (l : Layer)
    (h : createLayer c = .ok l) :
    l = { id := c.id, type := c.type, config := c } := by
  unfold createLayer at h
  cases hv : validateLayerConfig c with
  | error e => rw [hv] at h; cases h
  | ok u =>
    rw [hv] at h
    injection h with h1
    exact h1.symm

theorem lmGoodKeys_apply {m : LayerManager} (hm : lmGoodKeys m) (op : LMOp) :
    lmGoodKeys (LMOp.apply m op) := by
  cases op with
  | add c =>
    show lmGoodKeys (lmAddLayer m c).2
    by_cases hd : (aget m.layers c.id).isSome
    · simpa [lmAddLayer, hd] using hm
    · cases hcr : createLayer c with
      | error e => simpa [lmAddLayer, hd, hcr] using hm
      | ok l =>
        have hl : l = { id := c.id, type := c.type, config := c } :=
          createLayer_ok_shape c l hcr
        intro p hp
        have hp2 : p ∈ aset m.layers c.id l := by
          simpa [lmAddLayer, hd, hcr] using hp
        rcases mem_aset hp2 with h | h
        · subst h; simp [hl]
        · exact hm p h
  | remove id =>
    show lmGoodKeys (lmRemoveLayer m id)
    cases hg : aget m.layers id with
    | none => simpa [lmRemoveLayer, hg] using hm
    | some l =>
      intro p hp
      have hp2 : p ∈ adel m.layers id := by
        simpa [lmRemoveLayer, hg] using hp
      exact hm p (mem_adel hp2)
  | update id u =>
    show lmGoodKeys (lmUpdateLayer m id u).2
    cases hg : aget m.layers id with
    | none =>
      have hst : (lmUpdateLayer m id u).2 = m := by simp [lmUpdateLayer, hg]
      rw [hst]; exact hm
    | some l0 =>
      obtain ⟨l', hla, hid, hty⟩ := lmUpdateLayer_aset m id u l0 hg
      have hkey : l0.id = id := hm (id, l0) (aget_eq_some_mem hg)
      intro p hp
      have hp2 : p ∈ aset m.layers id l' := by rw [← hla]; exact hp
      rcases mem_aset hp2 with h | h
      · subst h; simp [hid, hkey]
      · exact hm p h
  | clearAll =>
    intro p hp
    simp [LMOp.apply, lmClear] at hp

theorem lmGoodKeys_run (m : LayerManager) (hm : lmGoodKeys m) (ops : List LMOp) :
    lmGoodKeys (lmRun m ops) := by
  induction ops generalizing m with
  | nil => simpa [lmRun] using hm
  | cons op rest ih =>
    have hstep : lmRun m (op :: rest) = lmRun (LMOp.apply m op) rest := by
      simp [lmRun]
    rw [hstep]
    exact ih _ (lmGoodKeys_apply hm op)

/-- A patch that also carries `id` and `type` fields. -/
def idPatch : LayerPatch :=
  { id := some "b2", type := some "heatmap" }

/-- C9 counterexample: `updateLayer("a", \x7bid:'b2', type:'heatmap'\x7d)` succeeds;
the layer instance keeps its immutable `id` (`"a"`), but the stored
descriptor's `id`/`type` are overwritten by the trailing shallow merge — the
descriptor no longer agrees with the instance's id/type or the registry
key. -/
theorem updateLayer_patch_rewrites_config_identity :
    (lmUpdateLayer mgrA "a" idPatch).1 = .ok ()
    ∧ ((aget (lmUpdateLayer mgrA "a" idPatch).2.layers "a").map (fun l => l.id))
        = some "a"
    ∧ ((aget (lmUpdateLayer mgrA "a" idPatch).2.layers "a").map (fun l => l.config.id))
        = some "b2"
    ∧ ((aget (lmUpdateLayer mgrA "a" idPatch).2.layers "a").map (fun l => l.config.type))
        = some "heatmap" :=
  ⟨rfl, rfl, rfl, rfl⟩

/-- C9 as amended: the layer instance's `id` and `type` fields are immutable
under every manager operation — after any operation sequence from an empty
manager every stored layer's `id` equals its registry key, and `updateLayer`
never changes the `id` or `type` of any stored layer instance. The stored
descriptor (`config`), however, is not protected: a patch carrying `id` or
`type` rewrites those descriptor fields (see the counterexample). -/
theorem layer_identity_invariant :
    (∀ ops : List LMOp, ∀ k l, aget (lmRun ⟨[]⟩ ops).layers k = some l → l.id = k)
    ∧ (∀ (m : LayerManager) (id : String) (u : LayerPatch) (k : String),
        ((aget (lmUpdateLayer m id u).2.layers k).map (fun l => (l.id, l.type)))
          = ((aget m.layers k).map (fun l => (l.id, l.type)))) := by
  constructor
  · intro ops k l h
    have hg : lmGoodKeys (lmRun ⟨[]⟩ ops) :=
      lmGoodKeys_run ⟨[]⟩ (by intro p hp; simp at hp) ops
    exact hg (k, l) (aget_eq_some_mem h)
  · intro m id u k
    cases hg : aget m.layers id with
    | none => simp [lmUpdateLayer, hg]
    | some l0 =>
      obtain ⟨l', hla, hid, hty⟩ := lmUpdateLayer_aset m id u l0 hg
      by_cases hk : k = id
      · subst hk
        rw [hla, aget_aset_self, hg]
        simp [hid, hty]
      · rw [hla, aget_aset_ne m.layers id k l' hk]

/-- Witness for the C9 amendment at a concrete run and update. -/
theorem layer_identity_invariant_witness :
    layerA.id = "a"
    ∧ ((aget (lmUpdateLayer mgrA "a" idPatch).2.layers "a").map (fun l => (l.id, l.type)))
        = ((aget mgrA.layers "a").map (fun l => (l.id, l.type))) :=
  ⟨layer_identity_invariant.1 [LMOp.add cfgA] "a" layerA rfl,
   layer_identity_invariant.2 mgrA "a" idPatch "a"⟩
